import Mathlib

/-!
Shallow embedding of `Source/Voreeal/Classes/VoreealRegion.h`.

The header defines the value type `FVoreealRegion` (six signed 32-bit
fields `X Y Z Width Height Depth`), derived queries (`Min`, `Max`,
`GetLower`, `GetUpper`, `Size`, `GetCenter`), in-place mutators
(`Grow`, `GrowUnified`, `ShiftUpperCorner`, `ShiftLowerCorner`),
three-way box classification (`Contains` on two regions), point
containment (`Contains` on a region and a vector), the boolean
shorthand `Intersect`, conversion to/from `PolyVox::Region`, and
binary archive streaming of the six fields.

Modelling choices:
- `int32` fields are modelled as `Int`.  Every operation in the header
  is built from additions, subtractions, doublings, halvings and
  comparisons; none of the claims under verification concerns 32-bit
  wrap-around, so the unbounded integers are the faithful reading of
  the arithmetic.
- `FVector` (the engine's float vector) only ever carries values that
  start life as `int32` fields (via `GetLower`/`GetUpper`) or the
  caller's query point; the comparisons in the header are exact on
  such values, so vectors are modelled with integer coordinates.
- mutators become state-passing functions `FVoreealRegion → args →
  FVoreealRegion` returning the updated value.
-/

namespace Voreeal

/-- Three-way classification result, from the `EContainmentType` enum
of the header: `Disjoint` (no overlap), `Contains` (one volume
completely contains the other), `Intersects` (partial overlap). -/
inductive EContainmentType where
  | Disjoint
  | Contains
  | Intersects
  deriving DecidableEq

/-- Engine vector with the integer coordinates actually flowing
through the header's functions (stands in for both `FVector` and
`FIntVector`, which hold the same data here). -/
structure FIntVector where
  X : Int
  Y : Int
  Z : Int
  deriving DecidableEq

/-- Region within a volume: position `(X, Y, Z)` plus extent
`(Width, Height, Depth)`, all signed integers, mirroring the six
`int32` fields of `FVoreealRegion`. -/
structure FVoreealRegion where
  X : Int
  Y : Int
  Z : Int
  Width : Int
  Height : Int
  Depth : Int
  deriving DecidableEq

namespace FVoreealRegion

/-- Default constructor: all six fields zero. -/
def default : FVoreealRegion := ⟨0, 0, 0, 0, 0, 0⟩

/-- Two-corner constructor `FVoreealRegion(FVector Lower, FVector
Upper)`: stores `X = Lower.X, ..., Width = Lower.X - Upper.X, ...`
exactly as written in the header (lower minus upper). -/
def fromCorners (Lower Upper : FIntVector) : FVoreealRegion :=
  ⟨Lower.X, Lower.Y, Lower.Z,
   Lower.X - Upper.X, Lower.Y - Upper.Y, Lower.Z - Upper.Z⟩

/-- Size-only constructor `FVoreealRegion(FVector Size)`, which the
header delegates to the two-corner constructor with lower corner
`ZeroVector`. -/
def fromSize (Size : FIntVector) : FVoreealRegion :=
  fromCorners ⟨0, 0, 0⟩ Size

/-- `GetLower`: the vector `(X, Y, Z)`. -/
def GetLower (Region : FVoreealRegion) : FIntVector :=
  ⟨Region.X, Region.Y, Region.Z⟩

/-- `GetUpper`: the vector `(X + Width, Y + Height, Z + Depth)`. -/
def GetUpper (Region : FVoreealRegion) : FIntVector :=
  ⟨Region.X + Region.Width, Region.Y + Region.Height, Region.Z + Region.Depth⟩

/-- `Min()`: returns `FVector(X, Y, Z)`. -/
def Min (Region : FVoreealRegion) : FIntVector :=
  ⟨Region.X, Region.Y, Region.Z⟩

/-- `Max()`: returns `FVector(X + Width, Y + Height, Z + Depth)`. -/
def Max (Region : FVoreealRegion) : FIntVector :=
  ⟨Region.X + Region.Width, Region.Y + Region.Height, Region.Z + Region.Depth⟩

/-- `Size()`: the extent vector `(Width, Height, Depth)`. -/
def Size (Region : FVoreealRegion) : FIntVector :=
  ⟨Region.Width, Region.Height, Region.Depth⟩

/-- `GetCenter()`: `FVector(X + Width / 2, Y + Height / 2,
Z + Depth / 2)` with C++ `int32` division, which truncates toward
zero; `Int.tdiv` is the Lean division with that rounding. -/
def GetCenter (Region : FVoreealRegion) : FIntVector :=
  ⟨Region.X + Int.tdiv Region.Width 2,
   Region.Y + Int.tdiv Region.Height 2,
   Region.Z + Int.tdiv Region.Depth 2⟩

/-- `Grow(Width, Height, Depth)`: origin decreases by the deltas,
extent increases by twice the deltas. -/
def Grow (Region : FVoreealRegion) (pWidth pHeight pDepth : Int) : FVoreealRegion :=
  ⟨Region.X - pWidth, Region.Y - pHeight, Region.Z - pDepth,
   Region.Width + pWidth * 2, Region.Height + pHeight * 2, Region.Depth + pDepth * 2⟩

/-- `GrowUnified(Amount)`: `Grow` with the same delta on all axes. -/
def GrowUnified (Region : FVoreealRegion) (Amount : Int) : FVoreealRegion :=
  ⟨Region.X - Amount, Region.Y - Amount, Region.Z - Amount,
   Region.Width + Amount * 2, Region.Height + Amount * 2, Region.Depth + Amount * 2⟩

/-- `ShiftUpperCorner(pX, pY, pZ)`: adds the deltas to the origin and
subtracts them from the extent. -/
def ShiftUpperCorner (Region : FVoreealRegion) (pX pY pZ : Int) : FVoreealRegion :=
  ⟨Region.X + pX, Region.Y + pY, Region.Z + pZ,
   Region.Width - pX, Region.Height - pY, Region.Depth - pZ⟩

/-- `ShiftLowerCorner(pX, pY, pZ)`: adds the deltas to the extent
only. -/
def ShiftLowerCorner (Region : FVoreealRegion) (pX pY pZ : Int) : FVoreealRegion :=
  ⟨Region.X, Region.Y, Region.Z,
   Region.Width + pX, Region.Height + pY, Region.Depth + pZ⟩

/-- `Contains(Region1, Region2)`: three-way classification, exactly
the two guarded tests of the header (disjoint test first, then full
containment, otherwise `Intersects`). -/
def Contains (Region1 Region2 : FVoreealRegion) : EContainmentType :=
  let Lower1 := Region1.GetLower
  let Upper1 := Region1.GetUpper
  let Lower2 := Region2.GetLower
  let Upper2 := Region2.GetUpper
  if Upper2.X < Lower1.X ∨ Lower2.X > Upper1.X ∨
     Upper2.Y < Lower1.Y ∨ Lower2.Y > Upper1.Y ∨
     Upper2.Z < Lower1.Z ∨ Lower2.Z > Upper1.Z then
    EContainmentType.Disjoint
  else if Lower2.X ≥ Lower1.X ∧ Upper2.X ≤ Upper1.X ∧
          Lower2.Y ≥ Lower1.Y ∧ Upper2.Y ≤ Upper1.Y ∧
          Lower2.Z ≥ Lower1.Z ∧ Upper2.Z ≤ Upper1.Z then
    EContainmentType.Contains
  else
    EContainmentType.Intersects

/-- `Contains(Region1, Vector)`: the point-containment overload of
the header, false when the point falls below the lower corner or
above `Upper - 1` on any axis. -/
def ContainsPoint (Region1 : FVoreealRegion) (Vector : FIntVector) : Bool :=
  let Lower := Region1.GetLower
  let Upper := Region1.GetUpper
  if Vector.X < Lower.X ∨ Vector.X > (Upper.X - 1) ∨
     Vector.Y < Lower.Y ∨ Vector.Y > (Upper.Y - 1) ∨
     Vector.Z < Lower.Z ∨ Vector.Z > (Upper.Z - 1) then
    false
  else
    true

/-- `Intersect(Region1, Region2)`: true iff the three-way
classification is `Intersects`. -/
def Intersect (Region1 Region2 : FVoreealRegion) : Bool :=
  Contains Region1 Region2 == EContainmentType.Intersects

end FVoreealRegion

/-- Modelled from the spec: the external `PolyVox::Region` type is not
part of this repository; per the spec it is an inclusive lower/upper
pair whose width/height/depth accessors are exclusive-upper-bound
derived values (`width = upperX − lowerX`, etc.).  The six-argument
constructor stores its arguments as the lower and upper corners. -/
structure PolyVoxRegion where
  lowerX : Int
  lowerY : Int
  lowerZ : Int
  upperX : Int
  upperY : Int
  upperZ : Int
  deriving DecidableEq

namespace PolyVoxRegion

/-- Modelled from the spec: `getWidthInVoxels` accessor of the
external region type, an exclusive-upper-bound derived value. -/
def getWidthInVoxels (Other : PolyVoxRegion) : Int := Other.upperX - Other.lowerX

/-- Modelled from the spec: `getHeightInVoxels` accessor of the
external region type. -/
def getHeightInVoxels (Other : PolyVoxRegion) : Int := Other.upperY - Other.lowerY

/-- Modelled from the spec: `getDepthInVoxels` accessor of the
external region type. -/
def getDepthInVoxels (Other : PolyVoxRegion) : Int := Other.upperZ - Other.lowerZ

end PolyVoxRegion

namespace FVoreealRegion

/-- `operator=(const PolyVox::Region&)`: reads the external region's
width/height/depth through its accessors and its lower corner, and
stores them into the six fields. -/
def assignFromPolyVox (Other : PolyVoxRegion) : FVoreealRegion :=
  let width := Other.getWidthInVoxels
  let height := Other.getHeightInVoxels
  let depth := Other.getDepthInVoxels
  ⟨Other.lowerX, Other.lowerY, Other.lowerZ, width, height, depth⟩

/-- `operator PolyVox::Region()`: constructs the external region from
`(X, Y, Z)` and `(X + Width, Y + Height, Z + Depth)` as its lower and
upper bounds. -/
def toPolyVox (Region : FVoreealRegion) : PolyVoxRegion :=
  ⟨Region.X, Region.Y, Region.Z,
   Region.X + Region.Width, Region.Y + Region.Height, Region.Z + Region.Depth⟩

/-- Archive `operator<<` in saving mode: the six `int32` fields are
appended to the stream in the fixed order `X, Y, Z, Width, Height,
Depth`, with no version tag or length prefix (the stream is modelled
as the list of 32-bit words written). -/
def serialize (Region : FVoreealRegion) : List Int :=
  [Region.X, Region.Y, Region.Z, Region.Width, Region.Height, Region.Depth]

/-- Archive `operator<<` in loading mode: the same statement sequence
reads six `int32` values from the front of the stream in the order
`X, Y, Z, Width, Height, Depth`; fails if the stream is shorter. -/
def deserialize : List Int → Option (FVoreealRegion × List Int)
  | x :: y :: z :: w :: h :: d :: rest => some (⟨x, y, z, w, h, d⟩, rest)
  | _ => none

end FVoreealRegion

/-- C4: for every pair of corner vectors `(Lower, Upper)` the
two-corner constructor stores origin `= Lower` and extent
`= Lower − Upper` component-wise (lower minus upper), with no
validation or sign correction; in particular corners `(0,0,0)` and
`(2,3,4)` yield the negative extent `(-2,-3,-4)`. -/
theorem C4_two_corner_ctor :
    (∀ Lower Upper : FIntVector,
      FVoreealRegion.fromCorners Lower Upper =
        ⟨Lower.X, Lower.Y, Lower.Z,
         Lower.X - Upper.X, Lower.Y - Upper.Y, Lower.Z - Upper.Z⟩) ∧
    FVoreealRegion.fromCorners ⟨0, 0, 0⟩ ⟨2, 3, 4⟩ = ⟨0, 0, 0, -2, -3, -4⟩ :=
  ⟨fun _ _ => rfl, by decide⟩

/-- C6: for every region and every integer `n`, `GrowUnified n`
followed by `GrowUnified (-n)` restores the original origin and
extent exactly. -/
theorem C6_grow_unified_inverse (r : FVoreealRegion) (n : Int) :
    FVoreealRegion.GrowUnified (FVoreealRegion.GrowUnified r n) (-n) = r := by
  obtain ⟨x, y, z, w, h, d⟩ := r
  simp only [FVoreealRegion.GrowUnified, FVoreealRegion.mk.injEq]
  omega

/-- C7: for the region with origin `(2,3,4)` and extent `(5,6,7)`,
`Min = (2,3,4)`, `Max = (7,9,11)` and `GetCenter = (4,6,7)`; in
general `GetCenter` is origin plus extent divided by two with
truncation toward zero (`Int.tdiv`), as the negative-extent example
`extent = (-5,-5,-5) ↦ center = (-2,-2,-2)` exhibits. -/
theorem C7_min_max_center :
    FVoreealRegion.Min ⟨2, 3, 4, 5, 6, 7⟩ = ⟨2, 3, 4⟩ ∧
    FVoreealRegion.Max ⟨2, 3, 4, 5, 6, 7⟩ = ⟨7, 9, 11⟩ ∧
    FVoreealRegion.GetCenter ⟨2, 3, 4, 5, 6, 7⟩ = ⟨4, 6, 7⟩ ∧
    (∀ r : FVoreealRegion, FVoreealRegion.GetCenter r =
      ⟨r.X + Int.tdiv r.Width 2, r.Y + Int.tdiv r.Height 2,
       r.Z + Int.tdiv r.Depth 2⟩) ∧
    FVoreealRegion.GetCenter ⟨0, 0, 0, -5, -5, -5⟩ = ⟨-2, -2, -2⟩ :=
  ⟨by decide, by decide, by decide, fun _ => rfl, by decide⟩

/-- C8: for every region and deltas `(dx,dy,dz)`, `ShiftUpperCorner`
adds the deltas to the origin and subtracts them from the extent,
leaving the upper corner `origin + extent` unchanged, while
`ShiftLowerCorner` adds the deltas to the extent only, leaving the
origin (lower corner) unchanged. -/
theorem C8_shift_corners (r : FVoreealRegion) (dx dy dz : Int) :
    FVoreealRegion.ShiftUpperCorner r dx dy dz =
      ⟨r.X + dx, r.Y + dy, r.Z + dz,
       r.Width - dx, r.Height - dy, r.Depth - dz⟩ ∧
    (FVoreealRegion.ShiftUpperCorner r dx dy dz).GetUpper = r.GetUpper ∧
    FVoreealRegion.ShiftLowerCorner r dx dy dz =
      ⟨r.X, r.Y, r.Z, r.Width + dx, r.Height + dy, r.Depth + dz⟩ ∧
    (FVoreealRegion.ShiftLowerCorner r dx dy dz).GetLower = r.GetLower := by
  refine ⟨rfl, ?_, rfl, rfl⟩
  simp only [FVoreealRegion.ShiftUpperCorner, FVoreealRegion.GetUpper,
    FIntVector.mk.injEq]
  omega

/-- C1: `Contains A B` returns `Disjoint` exactly when the continuous
extents `[lower, upper]` (inclusive of the upper face) fail to
overlap on at least one axis, the comparisons being strict
(`upper2 < lower1`, `lower2 > upper1`); consequently the
face-to-face-touching boxes `A = [0,1]^3` and
`B = [1,2] × [0,1] × [0,1]` are classified `Intersects`, not
`Disjoint`. -/
theorem C1_disjoint_iff :
    (∀ A B : FVoreealRegion,
      FVoreealRegion.Contains A B = EContainmentType.Disjoint ↔
        (¬ (A.X ≤ B.X + B.Width ∧ B.X ≤ A.X + A.Width) ∨
         ¬ (A.Y ≤ B.Y + B.Height ∧ B.Y ≤ A.Y + A.Height) ∨
         ¬ (A.Z ≤ B.Z + B.Depth ∧ B.Z ≤ A.Z + A.Depth))) ∧
    FVoreealRegion.Contains ⟨0, 0, 0, 1, 1, 1⟩ ⟨1, 0, 0, 1, 1, 1⟩ =
      EContainmentType.Intersects := by
  constructor
  · intro A B
    simp only [FVoreealRegion.Contains, FVoreealRegion.GetLower,
      FVoreealRegion.GetUpper]
    split_ifs with h1 h2 <;> simp <;> omega
  · decide

/-- C2: point containment `Contains R p` holds exactly when on every
axis the point lies in `[lower, upper − 1]` (upper bound exclusive by
one unit); for the unit box at the origin, `(0,0,0)` is contained and
`(1,0,0)` is not. -/
theorem C2_point_contains_iff :
    (∀ (R : FVoreealRegion) (p : FIntVector),
      FVoreealRegion.ContainsPoint R p = true ↔
        (R.X ≤ p.X ∧ p.X ≤ R.X + R.Width - 1 ∧
         R.Y ≤ p.Y ∧ p.Y ≤ R.Y + R.Height - 1 ∧
         R.Z ≤ p.Z ∧ p.Z ≤ R.Z + R.Depth - 1)) ∧
    FVoreealRegion.ContainsPoint ⟨0, 0, 0, 1, 1, 1⟩ ⟨0, 0, 0⟩ = true ∧
    FVoreealRegion.ContainsPoint ⟨0, 0, 0, 1, 1, 1⟩ ⟨1, 0, 0⟩ = false := by
  refine ⟨fun R p => ?_, by decide, by decide⟩
  simp only [FVoreealRegion.ContainsPoint, FVoreealRegion.GetLower,
    FVoreealRegion.GetUpper]
  split_ifs with h <;> simp <;> omega

/-- C3: converting a region with non-negative extents to the external
PolyVox region (origin and origin + extent as lower/upper bounds) and
assigning back (reading the lower corner and the width/height/depth
accessors) reproduces all six fields exactly, and the opposite
composition is also the identity: the two conversion directions are
exact inverses. -/
theorem C3_polyvox_roundtrip (r : FVoreealRegion) (p : PolyVoxRegion)
    (hW : 0 ≤ r.Width) (hH : 0 ≤ r.Height) (hD : 0 ≤ r.Depth) :
    FVoreealRegion.assignFromPolyVox (FVoreealRegion.toPolyVox r) = r ∧
    FVoreealRegion.toPolyVox (FVoreealRegion.assignFromPolyVox p) = p := by
  constructor
  · obtain ⟨x, y, z, w, h, d⟩ := r
    simp only [FVoreealRegion.toPolyVox, FVoreealRegion.assignFromPolyVox,
      PolyVoxRegion.getWidthInVoxels, PolyVoxRegion.getHeightInVoxels,
      PolyVoxRegion.getDepthInVoxels, FVoreealRegion.mk.injEq,
      true_and, and_true]
    omega
  · obtain ⟨lx, ly, lz, ux, uy, uz⟩ := p
    simp only [FVoreealRegion.toPolyVox, FVoreealRegion.assignFromPolyVox,
      PolyVoxRegion.getWidthInVoxels, PolyVoxRegion.getHeightInVoxels,
      PolyVoxRegion.getDepthInVoxels, PolyVoxRegion.mk.injEq,
      true_and, and_true]
    omega

/-- C3 witness: the round trip instantiated at the concrete region
`(1,2,3,4,5,6)` and the concrete external region with corners
`(0,0,0)` and `(7,8,9)`. -/
theorem C3_polyvox_roundtrip_witness :
    (0 ≤ (4 : Int) ∧ 0 ≤ (5 : Int) ∧ 0 ≤ (6 : Int)) ∧
    (FVoreealRegion.assignFromPolyVox
        (FVoreealRegion.toPolyVox ⟨1, 2, 3, 4, 5, 6⟩) = ⟨1, 2, 3, 4, 5, 6⟩ ∧
     FVoreealRegion.toPolyVox
        (FVoreealRegion.assignFromPolyVox ⟨0, 0, 0, 7, 8, 9⟩) = ⟨0, 0, 0, 7, 8, 9⟩) :=
  ⟨⟨by decide, by decide, by decide⟩,
   C3_polyvox_roundtrip ⟨1, 2, 3, 4, 5, 6⟩ ⟨0, 0, 0, 7, 8, 9⟩
     (by decide) (by decide) (by decide)⟩

/-- C5: for every valid region `A` (all extents non-negative),
`Contains A A = Contains` and `Intersect A A = false`; in general
`Intersect B C` is true exactly when `Contains B C = Intersects`, so
a fully contained box and identical boxes both report
`Intersect = false`. -/
theorem C5_self_containment (A B C : FVoreealRegion)
    (hW : 0 ≤ A.Width) (hH : 0 ≤ A.Height) (hD : 0 ≤ A.Depth) :
    FVoreealRegion.Contains A A = EContainmentType.Contains ∧
    FVoreealRegion.Intersect A A = false ∧
    (FVoreealRegion.Intersect B C = true ↔
      FVoreealRegion.Contains B C = EContainmentType.Intersects) := by
  have hC : FVoreealRegion.Contains A A = EContainmentType.Contains := by
    simp only [FVoreealRegion.Contains, FVoreealRegion.GetLower,
      FVoreealRegion.GetUpper]
    split_ifs with h1 h2
    · omega
    · rfl
    · omega
  refine ⟨hC, ?_, ?_⟩
  · unfold FVoreealRegion.Intersect
    rw [hC]
    decide
  · simp [FVoreealRegion.Intersect]

/-- C5 witness: the property instantiated at the concrete valid
region `(0,0,0,2,2,2)` together with the overlapping pair
`(0,0,0,4,4,4)` and `(2,2,2,4,4,4)`. -/
theorem C5_self_containment_witness :
    (0 ≤ (2 : Int) ∧ 0 ≤ (2 : Int) ∧ 0 ≤ (2 : Int)) ∧
    (FVoreealRegion.Contains ⟨0, 0, 0, 2, 2, 2⟩ ⟨0, 0, 0, 2, 2, 2⟩ =
        EContainmentType.Contains ∧
     FVoreealRegion.Intersect ⟨0, 0, 0, 2, 2, 2⟩ ⟨0, 0, 0, 2, 2, 2⟩ = false ∧
     (FVoreealRegion.Intersect ⟨0, 0, 0, 4, 4, 4⟩ ⟨2, 2, 2, 4, 4, 4⟩ = true ↔
       FVoreealRegion.Contains ⟨0, 0, 0, 4, 4, 4⟩ ⟨2, 2, 2, 4, 4, 4⟩ =
         EContainmentType.Intersects)) :=
  ⟨⟨by decide, by decide, by decide⟩,
   C5_self_containment ⟨0, 0, 0, 2, 2, 2⟩ ⟨0, 0, 0, 4, 4, 4⟩ ⟨2, 2, 2, 4, 4, 4⟩
     (by decide) (by decide) (by decide)⟩

/-- C9: serialization writes, and deserialization reads, exactly the
six signed fields in the fixed order `X, Y, Z, Width, Height, Depth`
with no version tag or length prefix, and deserializing what was
serialized restores the region exactly (and consumes exactly the six
written words, leaving the rest of the stream untouched). -/
theorem C9_serialize_roundtrip (r : FVoreealRegion) (rest : List Int) :
    FVoreealRegion.serialize r =
      [r.X, r.Y, r.Z, r.Width, r.Height, r.Depth] ∧
    FVoreealRegion.deserialize (FVoreealRegion.serialize r ++ rest) =
      some (r, rest) :=
  ⟨rfl, rfl⟩

/-- C10: `Intersect` is not symmetric: with `A = region (0,0,0)
extent (10,10,10)` and `B = region (2,2,2) extent (3,3,3)`,
`Contains A B = Contains` hence `Intersect A B = false`, while
`Contains B A = Intersects` hence `Intersect B A = true`. -/
theorem C10_intersect_asymmetric :
    FVoreealRegion.Contains ⟨0, 0, 0, 10, 10, 10⟩ ⟨2, 2, 2, 3, 3, 3⟩ =
      EContainmentType.Contains ∧
    FVoreealRegion.Intersect ⟨0, 0, 0, 10, 10, 10⟩ ⟨2, 2, 2, 3, 3, 3⟩ = false ∧
    FVoreealRegion.Contains ⟨2, 2, 2, 3, 3, 3⟩ ⟨0, 0, 0, 10, 10, 10⟩ =
      EContainmentType.Intersects ∧
    FVoreealRegion.Intersect ⟨2, 2, 2, 3, 3, 3⟩ ⟨0, 0, 0, 10, 10, 10⟩ = true := by
  decide

end Voreeal
